import Mathlib

/-!
Verification of the TUN/UDP packet forwarder (src/main.rs) against its
natural-language specification.  The program opens /dev/net/tun, brings the
interface up through ioctl control operations, and then relays packets
between the device and a UDP socket: a spawned task receives UDP datagrams
and writes them to a buffered device writer, while the main loop selects on
device reads and sends each read to a fixed remote address.

The definitions below are a shallow embedding of that code: ioctl constants
and the flag-setting sequence, the access mode of the device open, the
address/netmask match arms, the buffer sizes, the tokio BufWriter write path,
and the per-iteration step functions of the spawned receive task and of the
main select loop.
-/

namespace Tunnel

/-! Flag and ioctl constants, as written in main.rs. -/

/-- Flag bit IFF_UP (main.rs line 86). -/
def IFF_UP : Nat := 1

/-- Flag bit IFF_RUNNING, 1 <<< 6 (main.rs line 87). -/
def IFF_RUNNING : Nat := 1 <<< 6

/-- TUNSETIFF request flag IFF_TUN (main.rs line 90). -/
def IFF_TUN : Nat := 0x0001

/-- TUNSETIFF request flag IFF_NO_PI (main.rs line 91). -/
def IFF_NO_PI : Nat := 0x1000

/-- TUNSETIFF request flag IFF_MULTI_QUEUE (main.rs line 92). -/
def IFF_MULTI_QUEUE : Nat := 0x0100

/-- The opcode the program uses for its get-flags call (main.rs line 98,
commented "get flags"): the value written in the source is 0x8914. -/
def SIOCGIFFLAGS : Nat := 0x8914

/-- The opcode the program uses for its set-flags call (main.rs line 99). -/
def SIOCSIFFLAGS : Nat := 0x8914

/-- Opcode for set-address (main.rs line 100). -/
def SIOCSIFADDR : Nat := 0x8916

/-- Opcode for set-netmask (main.rs line 101). -/
def SIOCSIFNETMASK : Nat := 0x891c

/-- The numeric opcode the host network stack (Linux) dispatches as
"fetch current interface flags into the request structure". -/
def kernelGetFlagsOp : Nat := 0x8913

/-- The numeric opcode the host network stack (Linux) dispatches as
"store the request structure's flags into the interface". -/
def kernelSetFlagsOp : Nat := 0x8914

/-- Kernel dispatch of a flags ioctl: given the opcode, the interface's
current flag word and the request structure's flag word, return the new
(interface flags, request flags) pair.  The get opcode copies interface
flags into the request; the set opcode copies request flags into the
interface; any other opcode leaves both unchanged. -/
def ioctlFlags (op kflags rflags : Nat) : Nat × Nat :=
  if op = kernelGetFlagsOp then (kflags, kflags)
  else if op = kernelSetFlagsOp then (rflags, rflags)
  else (kflags, rflags)

/-- Request flags after the TUNSETIFF step (main.rs line 110):
IFF_TUN | IFF_NO_PI | IFF_MULTI_QUEUE. -/
def initialReqFlags : Nat := IFF_TUN ||| IFF_NO_PI ||| IFF_MULTI_QUEUE

/-- The flag bring-up sequence of main.rs lines 116-120, as a function of
the interface's kernel flag word before the sequence: first
`ioctl(sock4, SIOCGIFFLAGS, &req)`, then `req.ifr_flags |= IFF_UP |
IFF_RUNNING`, then `ioctl(sock4, SIOCSIFFLAGS, &req)`.  The opcodes used
are the constants of the source; the kernel dispatches them per
`ioctlFlags`.  Returns the interface's kernel flag word afterwards. -/
def flagsBringUp (k0 : Nat) : Nat :=
  let s1 := ioctlFlags SIOCGIFFLAGS k0 initialReqFlags
  let r2 := s1.2 ||| (IFF_UP ||| IFF_RUNNING)
  let s3 := ioctlFlags SIOCSIFFLAGS s1.1 r2
  s3.1

/-- Modelled from the spec: "Set flags to the fetched value OR'd with
{UP, RUNNING} (preserve any other pre-existing bits)" — the flag word the
specification says the interface ends up with. -/
def flagsBringUpSpec (k0 : Nat) : Nat := k0 ||| (IFF_UP ||| IFF_RUNNING)

/-! Device open mode. -/

/-- File access mode: which of read and write the descriptor allows. -/
structure AccessMode where
  read : Bool
  write : Bool
deriving DecidableEq, Repr

/-- Access mode produced by `tokio::fs::File::open` (main.rs line 105):
open for reading only, as with `OpenOptions::new().read(true)`. -/
def fileOpenAccess : AccessMode := { read := true, write := false }

/-- The access mode of the descriptor obtained for "/dev/net/tun"
(main.rs line 105 uses `File::open`). -/
def tunOpenMode : AccessMode := fileOpenAccess

/-- Writing a packet through a descriptor: succeeds with the packet length
when the descriptor was opened with write access, otherwise fails with
EBADF. -/
def fdWrite (m : AccessMode) (p : List Nat) : Except String Nat :=
  if m.write then Except.ok p.length else Except.error "EBADF"

/-! Address and netmask configuration (main.rs lines 122-140). -/

/-- A parsed host address, IPv4 or IPv6 (the `InetAddr` the code matches
on). -/
inductive IpAddr
  | v4 (a b c d : Nat)
  | v6 (segs : List Nat)
deriving DecidableEq, Repr

/-- Outcome of one configuration step: the list of ioctl opcodes issued and
an optional error. -/
structure CfgOut where
  ioctls : List Nat
  err : Option String
deriving DecidableEq, Repr

/-- The set-address match of main.rs lines 124-130: a V4 address issues the
SIOCSIFADDR ioctl; the V6 arm is `InetAddr::V6(_) => {}` — it issues
nothing and produces no error. -/
def setAddrStep : IpAddr → CfgOut
  | IpAddr.v4 _ _ _ _ => { ioctls := [SIOCSIFADDR], err := none }
  | IpAddr.v6 _ => { ioctls := [], err := none }

/-- The set-netmask match of main.rs lines 133-140: a V4 netmask issues the
SIOCSIFNETMASK ioctl; the V6 arm is `InetAddr::V6(_) => ()` — it issues
nothing and produces no error. -/
def setNetmaskStep : IpAddr → CfgOut
  | IpAddr.v4 _ _ _ _ => { ioctls := [SIOCSIFNETMASK], err := none }
  | IpAddr.v6 _ => { ioctls := [], err := none }

/-! Buffers. -/

/-- Size of the buffer the spawned task receives UDP datagrams into:
`vec![0u8; 1024]` (main.rs line 170). -/
def udpBufSize : Nat := 1024

/-- Size of the buffer the main loop reads device packets into:
`vec![0u8; 1500]` (main.rs line 226). -/
def tunBufSize : Nat := 1500

/-- Number of payload bytes a datagram of length `n` delivers into the UDP
receive buffer: datagram sockets truncate to the buffer size. -/
def udpRecvLen (n : Nat) : Nat := min n udpBufSize

/-- Number of payload bytes a device packet of length `n` delivers into
the main loop's read buffer: truncated to the buffer size. -/
def tunReadLen (n : Nat) : Nat := min n tunBufSize

/-! The buffered device writer.  main.rs line 143 wraps the tun descriptor
in `BufWriter::new`, whose internal buffer capacity is tokio's default of
8192 bytes. -/

/-- Capacity of the BufWriter internal buffer (tokio default, 8 * 1024). -/
def bufWriterCap : Nat := 8192

/-- One `write` call on the BufWriter (tokio poll_write): if the buffered
bytes plus the new data would exceed the capacity, the buffered bytes are
first flushed to the device as one write; then, if the data itself is at
least the capacity, it is written directly to the device, otherwise it is
appended to the internal buffer and NOT written to the device.  Returns the
new internal buffer and the list of writes performed on the device. -/
def bufWriterWrite (st data : List Nat) : List Nat × List (List Nat) :=
  let flushed := if st.length + data.length > bufWriterCap then (([] : List Nat), [st])
                 else (st, ([] : List (List Nat)))
  if data.length ≥ bufWriterCap then (flushed.1, flushed.2 ++ [data])
  else (flushed.1 ++ data, flushed.2)

/-- The byte path of one spawned-task iteration (main.rs lines 170-176):
receive a datagram into the 1024-byte buffer (truncating), then
`tun_writer.write(&udp_buf[..n])`.  Given the BufWriter's internal buffer
and the datagram on the wire, returns the new internal buffer and the
device writes performed. -/
def udpForwardBytes (wbuf datagram : List Nat) : List Nat × List (List Nat) :=
  bufWriterWrite wbuf (datagram.take udpBufSize)

/-! Addresses on the transport leg. -/

/-- A socket address: four IPv4 octets and a port. -/
structure Addr where
  a : Nat
  b : Nat
  c : Nat
  d : Nat
  port : Nat
deriving DecidableEq, Repr

/-- The destination of every device-to-transport send, parsed anew each
iteration from the literal "127.0.0.1:9091" (main.rs line 235). -/
def remoteAddr : Addr := { a := 127, b := 0, c := 0, d := 1, port := 9091 }

/-- The local bind address of the UDP socket, from the literal
"0.0.0.0:9090" (main.rs line 146). -/
def bindAddr : Addr := { a := 0, b := 0, c := 0, d := 0, port := 9090 }

/-! Engine step functions. -/

/-- Diagnostic events printed by the program, one constructor per println
site of the forwarding code. -/
inductive LogEvent
  | recvUdp (n : Nat) (payload : List Nat) (peer : Addr)
  | wroteTun (n : Nat)
  | tunWriteErr (e : String)
  | udpReadErr (e : String)
  | readTun (n : Nat) (payload : List Nat)
  | sentUdp (n : Nat)
  | tunReadErr (e : String)
deriving DecidableEq, Repr

/-- Result of `recv_from` as the code matches it. -/
inductive RecvRes
  | ok (n : Nat) (peer : Addr)
  | err (e : String)
deriving DecidableEq, Repr

/-- Result of the buffered device write as the code matches it. -/
inductive WriteRes
  | ok (n : Nat)
  | err (e : String)
deriving DecidableEq, Repr

/-- Result of the device read as the code matches it. -/
inductive ReadRes
  | ok (n : Nat)
  | err (e : String)
deriving DecidableEq, Repr

/-- Result of `send_to` as the code matches it. -/
inductive SendRes
  | ok (n : Nat)
  | err (e : String)
deriving DecidableEq, Repr

/-- Outcome of one iteration of the spawned UDP receive task: the events
logged, whether the task leaves its loop, and an error escaping the task. -/
structure TaskOut where
  logs : List LogEvent
  stopped : Bool
  escaped : Option String
deriving DecidableEq, Repr

/-- One iteration of the spawned UDP receive task (main.rs lines 167-191),
given the receive buffer contents, the receive result and the device-write
result.  On `Ok((n, peer))` the code logs the payload when `n > 0`, then
unconditionally writes `&udp_buf[..n]` and logs the write outcome; on a
receive error it logs the error.  Every path falls through to the next
loop iteration: the task never breaks, never returns an error. -/
def udpTaskStep (udp_buf : List Nat) (r : RecvRes) (w : WriteRes) : TaskOut :=
  match r with
  | RecvRes.ok n peer =>
    let l1 := if n > 0 then [LogEvent.recvUdp n (udp_buf.take n) peer] else []
    let l2 := match w with
      | WriteRes.ok m => [LogEvent.wroteTun m]
      | WriteRes.err e => [LogEvent.tunWriteErr e]
    { logs := l1 ++ l2, stopped := false, escaped := none }
  | RecvRes.err e =>
    { logs := [LogEvent.udpReadErr e], stopped := false, escaped := none }

/-- Outcome of one iteration of the main select loop: the events logged,
the (payload, destination) datagrams handed to `send_to`, and whether the
loop exits. -/
structure LoopOut where
  logs : List LogEvent
  sends : List (List Nat × Addr)
  stopped : Bool
deriving DecidableEq, Repr

/-- One iteration of the main loop's tun-read branch (main.rs lines
225-277), given the read buffer contents, the read result and the send
result.  On `Ok(n)` the code logs when `n > 0`, then unconditionally calls
`send_to(&tun_buf[..n], remote_addr)` and logs the outcome (the send-error
arm prints "udp read error", as written in the source at line 248); on a
read error it logs and continues.  The loop never exits. -/
def mainLoopStep (tun_buf : List Nat) (r : ReadRes) (s : SendRes) : LoopOut :=
  match r with
  | ReadRes.ok n =>
    let l1 := if n > 0 then [LogEvent.readTun n (tun_buf.take n)] else []
    let l2 := match s with
      | SendRes.ok m => [LogEvent.sentUdp m]
      | SendRes.err e => [LogEvent.udpReadErr e]
    { logs := l1 ++ l2, sends := [(tun_buf.take n, remoteAddr)], stopped := false }
  | ReadRes.err e =>
    { logs := [LogEvent.tunReadErr e], sends := [], stopped := false }

/-! Concurrency structure. -/

/-- The two readiness sources of the forwarding engine. -/
inductive ReadinessSource
  | device
  | transport
deriving DecidableEq, Repr

/-- The wait structure of the engine: which readiness sources the main
loop's `select!` waits on, and which sources separately spawned tasks wait
on. -/
structure EngineStructure where
  mainSelectSources : List ReadinessSource
  spawnedTaskSources : List ReadinessSource
deriving DecidableEq, Repr

/-- The wait structure of main.rs: the `select!` of lines 229-255 has
exactly one live branch (`tun_reader.read`); the UDP receive is awaited by
the task spawned at lines 167-191. -/
def engineStructure : EngineStructure :=
  { mainSelectSources := [ReadinessSource.device]
    spawnedTaskSources := [ReadinessSource.transport] }

/-- The readiness sources still awaited after a pair of iterations: the
device as long as the main loop has not exited, the transport as long as
the spawned task has not exited. -/
def awaitedSources (t : TaskOut) (l : LoopOut) : List ReadinessSource :=
  (if l.stopped then [] else [ReadinessSource.device]) ++
  (if t.stopped then [] else [ReadinessSource.transport])

end Tunnel

namespace Tunnel

/-- C2, claim as stated: the bring-up flag sequence would leave the
interface flags at the fetched value OR'd with {UP, RUNNING}.  Refuted at a
concrete pre-existing flag word: with kernel flags 0x10 (IFF_POINTOPOINT)
before bring-up, the code's sequence — whose get-flags constant is 0x8914,
the set-flags opcode — leaves the flags at 0x1141, the stale TUNSETIFF
request value OR'd with UP and RUNNING, and the pre-existing 0x10 bit is
cleared, while the specification's sequence would give 0x51. -/
theorem flags_bring_up_clobbers :
    flagsBringUp 0x10 = 0x1141 ∧
    flagsBringUpSpec 0x10 = 0x51 ∧
    flagsBringUp 0x10 ≠ flagsBringUpSpec 0x10 ∧
    Nat.testBit (flagsBringUp 0x10) 4 = false ∧
    SIOCGIFFLAGS = kernelSetFlagsOp ∧ SIOCGIFFLAGS ≠ kernelGetFlagsOp := by
  refine ⟨by decide, by decide, by decide, by decide, by decide, by decide⟩

/-- C2, supporting fact: the final kernel flag word of the code's bring-up
sequence is 0x1141 whatever the interface's flags were before it — no
pre-existing bit survives. -/
theorem flags_bring_up_constant (k0 : Nat) : flagsBringUp k0 = 0x1141 := by
  simp [flagsBringUp, ioctlFlags, kernelGetFlagsOp, kernelSetFlagsOp,
    SIOCGIFFLAGS, SIOCSIFFLAGS, initialReqFlags, IFF_TUN, IFF_NO_PI,
    IFF_MULTI_QUEUE, IFF_UP, IFF_RUNNING]

/-- C1: a received datagram is NOT written to the device in a single
whole-packet atomic write, nor dropped with an error.  At the failing
input — an 84-byte datagram arriving while the BufWriter's internal buffer
is empty — the whole payload is appended to the internal buffer and the
list of device writes performed is empty, although the payload is
nonempty. -/
theorem udp_datagram_buffered_not_written :
    udpForwardBytes [] (List.replicate 84 7) = (List.replicate 84 7, []) ∧
    List.replicate 84 7 ≠ ([] : List Nat) := by
  refine ⟨by decide, by decide⟩

/-- C3, claim as stated, refuted: when the device read completes with zero
bytes, the engine still performs a transport send — of the empty slice, to
the remote address — rather than retrying the wait without sending. -/
theorem zero_read_still_sends :
    (mainLoopStep (List.replicate 1500 0) (ReadRes.ok 0) (SendRes.ok 0)).sends
      = [(([] : List Nat), remoteAddr)] ∧
    (mainLoopStep (List.replicate 1500 0) (ReadRes.ok 0) (SendRes.ok 0)).sends
      ≠ [] := by
  refine ⟨by simp [mainLoopStep], by simp [mainLoopStep]⟩

/-- C3 amended: a transport send is performed on EVERY successful device
read, zero-byte reads included (then with an empty payload); the send
always carries exactly the first `n` bytes of the read buffer and is
addressed to the remote address; on a device read error nothing is sent. -/
theorem send_on_every_ok_read (buf : List Nat) (n : Nat) (s : SendRes)
    (e : String) :
    (mainLoopStep buf (ReadRes.ok n) s).sends = [(buf.take n, remoteAddr)] ∧
    (mainLoopStep buf (ReadRes.err e) s).sends = [] := by
  refine ⟨by simp [mainLoopStep], by simp [mainLoopStep]⟩

/-- C4, claim as stated, refuted: a transport receive of zero bytes does
not transition the engine to STOPPED — the receive task's iteration leaves
it running, with no error escaping. -/
theorem zero_recv_does_not_stop :
    (udpTaskStep (List.replicate 1024 0)
        (RecvRes.ok 0 { a := 127, b := 0, c := 0, d := 1, port := 5555 })
        (WriteRes.ok 0)).stopped = false ∧
    (udpTaskStep (List.replicate 1024 0)
        (RecvRes.ok 0 { a := 127, b := 0, c := 0, d := 1, port := 5555 })
        (WriteRes.ok 0)).escaped = none := by
  refine ⟨by simp [udpTaskStep], by simp [udpTaskStep]⟩

/-- C4 amended: on a zero-byte transport receive the engine stays RUNNING
and releases nothing: the task writes the zero-length slice to the buffered
writer, logs only the write outcome (no receive log), and continues its
loop; no error escapes. -/
theorem zero_recv_continues (buf : List Nat) (peer : Addr) (w : WriteRes) :
    (udpTaskStep buf (RecvRes.ok 0 peer) w).stopped = false ∧
    (udpTaskStep buf (RecvRes.ok 0 peer) w).escaped = none ∧
    (udpTaskStep buf (RecvRes.ok 0 peer) (WriteRes.ok 0)).logs
      = [LogEvent.wroteTun 0] := by
  cases w <;> refine ⟨by simp [udpTaskStep], by simp [udpTaskStep],
    by simp [udpTaskStep]⟩

/-- C5, claim as stated, refuted: the transport-leg packet buffer is 1024
bytes, not an MTU-sized 1500-byte allocation, so a 1500-byte datagram is
truncated to 1024 bytes on receive. -/
theorem udp_buffer_truncates_mtu :
    udpBufSize = 1024 ∧ udpRecvLen 1500 = 1024 ∧ udpRecvLen 1500 ≠ 1500 := by
  refine ⟨by decide, by decide, by decide⟩

/-- C5 amended: the device-leg buffer is MTU-sized (1500 bytes), so device
packets up to 1500 bytes fit untruncated; the transport-leg buffer is only
1024 bytes, so only datagrams up to 1024 bytes fit untruncated. -/
theorem buffer_sizes (n m : Nat) (h1 : n ≤ tunBufSize) (h2 : m ≤ udpBufSize) :
    tunBufSize = 1500 ∧ udpBufSize = 1024 ∧
    tunReadLen n = n ∧ udpRecvLen m = m := by
  refine ⟨rfl, rfl, Nat.min_eq_left h1, Nat.min_eq_left h2⟩

/-- C5 amended, witness at buffers filled to capacity. -/
theorem buffer_sizes_witness :
    1500 ≤ tunBufSize ∧ 1024 ≤ udpBufSize ∧
    (tunBufSize = 1500 ∧ udpBufSize = 1024 ∧
      tunReadLen 1500 = 1500 ∧ udpRecvLen 1024 = 1024) :=
  ⟨by decide, by decide, buffer_sizes 1500 1024 (by decide) (by decide)⟩

/-- C6, claim as stated, refuted: supplying an IPv6 address to the
address/netmask assignment steps raises no error at all — both steps
return successfully having issued no control operation. -/
theorem v6_silently_ignored :
    (setAddrStep (IpAddr.v6 [0, 0, 0, 0, 0, 0, 0, 1])).err = none ∧
    (setAddrStep (IpAddr.v6 [0, 0, 0, 0, 0, 0, 0, 1])).ioctls = [] ∧
    (setNetmaskStep (IpAddr.v6 [0, 0, 0, 0, 0, 0, 0, 1])).err = none ∧
    (setNetmaskStep (IpAddr.v6 [0, 0, 0, 0, 0, 0, 0, 1])).ioctls = [] := by
  refine ⟨by decide, by decide, by decide, by decide⟩

/-- C6 amended: an IPv6 address is silently ignored by the address and
netmask assignment steps — the set-address and set-netmask control
operations are skipped and no error is produced — whereas an IPv4 address
makes each step issue its control operation. -/
theorem v6_skipped_no_error (segs : List Nat) (a b c d : Nat) :
    setAddrStep (IpAddr.v6 segs) = { ioctls := [], err := none } ∧
    setNetmaskStep (IpAddr.v6 segs) = { ioctls := [], err := none } ∧
    setAddrStep (IpAddr.v4 a b c d)
      = { ioctls := [SIOCSIFADDR], err := none } ∧
    setNetmaskStep (IpAddr.v4 a b c d)
      = { ioctls := [SIOCSIFNETMASK], err := none } := by
  refine ⟨rfl, rfl, rfl, rfl⟩

/-- C7: the device special file is opened via `File::open`, which grants
read-only access, not read-write; a packet write through the resulting
descriptor fails with EBADF. -/
theorem tun_opened_read_only :
    tunOpenMode.read = true ∧ tunOpenMode.write = false ∧
    fdWrite tunOpenMode (List.replicate 84 7) = Except.error "EBADF" := by
  refine ⟨rfl, rfl, rfl⟩

/-- C8: a device write failure in the receive task is non-fatal: the task
logs the failure, does not stop, lets no error escape, and afterwards the
device and the transport readiness sources are both still awaited (the
main loop's iteration never stops either). -/
theorem device_write_failure_nonfatal (buf : List Nat) (n : Nat) (peer : Addr)
    (e : String) (lbuf : List Nat) (r : ReadRes) (s : SendRes) :
    (udpTaskStep buf (RecvRes.ok n peer) (WriteRes.err e)).stopped = false ∧
    (udpTaskStep buf (RecvRes.ok n peer) (WriteRes.err e)).escaped = none ∧
    LogEvent.tunWriteErr e
      ∈ (udpTaskStep buf (RecvRes.ok n peer) (WriteRes.err e)).logs ∧
    awaitedSources (udpTaskStep buf (RecvRes.ok n peer) (WriteRes.err e))
        (mainLoopStep lbuf r s)
      = [ReadinessSource.device, ReadinessSource.transport] := by
  refine ⟨by simp [udpTaskStep], by simp [udpTaskStep],
    by simp [udpTaskStep], ?_⟩
  cases r <;> simp [udpTaskStep, mainLoopStep, awaitedSources]

/-- C9, claim as stated, refuted: the main loop's multiplexed wait has
exactly ONE readiness source, not two — the transport is not among its
sources. -/
theorem select_has_one_source :
    engineStructure.mainSelectSources.length = 1 ∧
    engineStructure.mainSelectSources
      ≠ [ReadinessSource.device, ReadinessSource.transport] := by
  refine ⟨by decide, by decide⟩

/-- C9 amended: each main-loop cycle waits on a single readiness source,
the device; transport readiness is awaited by a separately spawned
concurrent task, so the two sources together are still both covered, but
not by one two-source multiplexed wait. -/
theorem wait_structure :
    engineStructure.mainSelectSources = [ReadinessSource.device] ∧
    engineStructure.spawnedTaskSources = [ReadinessSource.transport] ∧
    ∀ src : ReadinessSource,
      src ∈ engineStructure.mainSelectSources
            ++ engineStructure.spawnedTaskSources := by
  refine ⟨rfl, rfl, ?_⟩
  intro src
  cases src <;> simp [engineStructure]

/-- C10: the transport destination is the constant 127.0.0.1:9091 for every
device-to-transport send, the local bind address is the constant
0.0.0.0:9090, and the peer address reported by a transport receive has no
effect on anything but the log line — the receive task's non-log outcome is
identical for any two peers, and the main loop's send destination does not
depend on received peers at all. -/
theorem destination_constant :
    remoteAddr = { a := 127, b := 0, c := 0, d := 1, port := 9091 } ∧
    bindAddr = { a := 0, b := 0, c := 0, d := 0, port := 9090 } ∧
    (∀ (buf : List Nat) (n : Nat) (s : SendRes),
      (mainLoopStep buf (ReadRes.ok n) s).sends = [(buf.take n, remoteAddr)]) ∧
    (∀ (buf : List Nat) (e : String) (s : SendRes),
      (mainLoopStep buf (ReadRes.err e) s).sends = []) ∧
    (∀ (buf : List Nat) (n : Nat) (w : WriteRes) (peer peer' : Addr),
      { udpTaskStep buf (RecvRes.ok n peer) w with logs := [] } =
      { udpTaskStep buf (RecvRes.ok n peer') w with logs := [] }) := by
  refine ⟨rfl, rfl, ?_, ?_, ?_⟩
  · intro buf n s; simp [mainLoopStep]
  · intro buf e s; simp [mainLoopStep]
  · intro buf n w peer peer'; cases w <;> simp [udpTaskStep]

end Tunnel
